import Mathlib

/-!
Shallow embedding of `src/logging_config.py` (class `LoggerConfig`).

Modelling conventions:
* Python logging levels are `Nat`: NOTSET = 0, DEBUG = 10, INFO = 20,
  WARNING = 30, ERROR = 40, CRITICAL = 50.
* `getattr(logging, s.upper(), default)` is modelled by `getattrLogging`,
  a lookup in the table of ALL-UPPERCASE integer attributes of the Python
  `logging` module (`s.upper()` is all uppercase, so only all-uppercase
  attributes can match): CRITICAL, FATAL, ERROR, WARNING, WARN, INFO,
  DEBUG, NOTSET.  The one remaining all-uppercase attribute,
  `BASIC_FORMAT`, is a string, not an integer level; a name resolving to
  it would make the Python code store a string level and crash on the
  next `max`/`setLevel`.  That path lies outside this numeric model, so
  theorems quantifying over arbitrary level names carry the hypothesis
  `notBasicFormat s`.  `pyStrUpper` mirrors Python's `str.upper` on
  ASCII input, the intended domain of level names.
* A handler object carries only the piece of state the claims are about,
  its level (`setLevel`).  Formatter attachment has no observable effect
  in the claims and is not modelled.
* `logging.Logger` is modelled by `Logger`: its level, the ordered list
  of attached handler kinds (`addHandler` appends, `removeHandler`
  removes the first occurrence of the kind — each `LoggerConfig` owns at
  most one live handler object per kind, so kind identifies the object),
  a filter count (`addFilter`), and the list of records emitted through
  `self.logger.info` / `self.logger.warning`.
* The process-wide `logging.getLogger(name)` registry is injected: the
  constructor takes the `Logger` the name currently maps to (a fresh
  logger has an empty handler list).
* Whether the host has a local syslog transport (`/dev/log`) is injected
  as a boolean `syslogOk`: `SysLogHandler(...)` construction succeeds iff
  it is true; on failure the `except` branch runs.
* `_load_config`'s external JSON source is modelled by `LoadResult`:
  either `unreadable` (open/`json.load` raised) or a `parsed` key/value
  record.  The four level values may be a string or a non-string JSON
  value (`JVal.jother`), on which Python's `.upper()` raises
  `AttributeError` mid-assignment — the caught-exception path.  A string
  value uppercasing to "BASIC_FORMAT" stores that non-integer attribute
  in a level field; the model then keeps the `Nat` field at its
  pre-load value as a documented placeholder, while reproducing the
  control flow exactly — in particular the `TypeError` that line 180's
  eagerly evaluated `max(self.log_level, logging.INFO)` default raises
  when `log_level` holds the string, aborting the load with the
  diagnostic printed and the later fields retained.  `_load_config`
  returns the updated state plus a flag that is true iff the `except`
  branch printed a diagnostic.
-/

namespace LoggingCfg

/-- Integer level constants of the Python `logging` module. -/
def NOTSET : Nat := 0

def DEBUG : Nat := 10

def INFO : Nat := 20

def WARNING : Nat := 30

def ERROR : Nat := 40

def CRITICAL : Nat := 50

/-- The all-uppercase *integer* attributes of the `logging` module, i.e. the
names `getattr(logging, s.upper(), d)` can resolve to an int level. -/
def levelAttr : String → Option Nat
  | "CRITICAL" => some CRITICAL
  | "FATAL" => some CRITICAL
  | "ERROR" => some ERROR
  | "WARNING" => some WARNING
  | "WARN" => some WARNING
  | "INFO" => some INFO
  | "DEBUG" => some DEBUG
  | "NOTSET" => some NOTSET
  | _ => none

/-- Python's `str.upper` on ASCII input (character-by-character upcase;
written over the character list so that it evaluates by kernel
reduction). -/
def pyStrUpper (s : String) : String :=
  String.mk (s.data.map Char.toUpper)

/-- `getattr(logging, s.upper(), dflt)` for a level-name string `s`. -/
def getattrLogging (s : String) (dflt : Nat) : Nat :=
  (levelAttr (pyStrUpper s)).getD dflt

/-- Guard excluding the one all-uppercase non-integer attribute of
`logging` (see the module docstring). -/
def notBasicFormat (s : String) : Bool :=
  pyStrUpper s != "BASIC_FORMAT"

/-- `logging.getLevelName` restricted to ints (the direction used by
`get_handler_status`). -/
def getLevelName : Nat → String
  | 0 => "NOTSET"
  | 10 => "DEBUG"
  | 20 => "INFO"
  | 30 => "WARNING"
  | 40 => "ERROR"
  | 50 => "CRITICAL"
  | n => "Level " ++ toString n

/-- The kind of a handler attached to the logger. -/
inductive HKind where
  | file
  | syslog
  | console
deriving DecidableEq, Repr

/-- A handler object; the only state the claims observe is its level. -/
structure Handler where
  level : Nat
deriving DecidableEq, Repr

/-- The underlying shared `logging.Logger`. -/
structure Logger where
  level : Nat
  handlers : List HKind
  filterCount : Nat
  records : List String
deriving DecidableEq, Repr

/-- A logger with no handlers attached yet (fresh name in the registry;
Python's root-delegating default level is WARNING). -/
def freshLogger : Logger :=
  { level := WARNING, handlers := [], filterCount := 0, records := [] }

/-- The instance attributes of the Python class `LoggerConfig`. -/
structure LoggerConfig where
  name : String
  log_file : String
  syslog_facility : String
  use_file_logging : Bool
  use_syslog_logging : Bool
  use_console_logging : Bool
  log_level : Nat
  file_log_level : Nat
  syslog_log_level : Nat
  console_log_level : Nat
  file_handler : Option Handler
  syslog_handler : Option Handler
  console_handler : Option Handler
  logger : Logger
deriving DecidableEq, Repr

/-- A JSON value found under a level key: a string, or anything else
(`.upper()` raises on the latter). -/
inductive JVal where
  | jstr (s : String)
  | jother
deriving DecidableEq, Repr

/-- `v.upper()`: succeeds exactly on strings. -/
def pyUpper : JVal → Except Unit String
  | .jstr s => .ok (pyStrUpper s)
  | .jother => .error ()

/-- The parsed JSON settings object: each recognized key present or
absent (`config.get(key, default)`). -/
structure Settings where
  log_file : Option String
  log_level : Option JVal
  file_log_level : Option JVal
  syslog_log_level : Option JVal
  console_log_level : Option JVal
  syslog_facility : Option String
  use_file_logging : Option Bool
  use_syslog_logging : Option Bool
  use_console_logging : Option Bool
deriving DecidableEq, Repr

/-- A settings object with every key absent. -/
def Settings.empty : Settings :=
  { log_file := none, log_level := none, file_log_level := none,
    syslog_log_level := none, console_log_level := none,
    syslog_facility := none, use_file_logging := none,
    use_syslog_logging := none, use_console_logging := none }

/-- Outcome of `open(config_file)` + `json.load`: raised, or a parsed
object. -/
inductive LoadResult where
  | unreadable
  | parsed (cfg : Settings)
deriving DecidableEq, Repr

/-- `LoggerConfig._load_config` (src lines 160-188).  Assignments run in
source order; a non-string level value raises at `.upper()` and the
`except` clause catches it and prints, leaving the assignments already
made in place.  Returns the state plus `true` iff the diagnostic was
printed.

A string level value whose uppercase is "BASIC_FORMAT" makes the
`getattr` return the module's one non-integer all-uppercase attribute,
storing a *string* in the level attribute.  A `Nat` field cannot hold
that string, so the model keeps the field at its pre-load value as a
placeholder wherever that happens; the control flow around it is exact:
in particular, when line 178 stored the string, line 180's eagerly
evaluated `getattr` default `max(self.log_level, logging.INFO)` raises
`TypeError` (after the line's own `.upper()` ran), so the run aborts
there with the diagnostic printed and the syslog/console/facility/flag
fields retained.  Runs that complete with a string stored in a
file/syslog/console level field (their own key resolving to
BASIC_FORMAT) carry the placeholder in that one field; no theorem below
admits such an input. -/
def _load_config (c : LoggerConfig) (src : LoadResult) : LoggerConfig × Bool :=
  match src with
  | .unreadable => (c, true)
  | .parsed cfg =>
    -- line 177: self.log_file = config.get('log_file', self.log_file)
    let c := { c with log_file := cfg.log_file.getD c.log_file }
    -- line 178: getattr(logging, config.get('log_level', 'DEBUG').upper(), logging.DEBUG)
    match pyUpper (cfg.log_level.getD (JVal.jstr "DEBUG")) with
    | .error _ => (c, true)
    | .ok u1 =>
      -- llStr: line 178 resolved to the BASIC_FORMAT string (placeholder kept)
      let llStr := u1 == "BASIC_FORMAT"
      let c := if llStr then c else { c with log_level := (levelAttr u1).getD DEBUG }
      -- line 179: default for the getattr is self.log_level (just updated)
      match pyUpper (cfg.file_log_level.getD (JVal.jstr "DEBUG")) with
      | .error _ => (c, true)
      | .ok u2 =>
        -- string stored when the key's own value is BASIC_FORMAT, or when it is
        -- unrecognized and the fallback self.log_level holds the string
        let fStr := u2 == "BASIC_FORMAT" || (llStr && (levelAttr u2).isNone)
        let c := if fStr then c
          else { c with file_log_level := (levelAttr u2).getD c.log_level }
        -- line 180: the line's .upper() runs first, then the eager default
        -- max(self.log_level, logging.INFO) raises TypeError on a string
        -- log_level: caught at line 186, diagnostic printed, later fields kept
        match pyUpper (cfg.syslog_log_level.getD (JVal.jstr "INFO")) with
        | .error _ => (c, true)
        | .ok u3 =>
          if llStr then (c, true)
          else
            let sStr := u3 == "BASIC_FORMAT"
            let c := if sStr then c
              else { c with syslog_log_level := (levelAttr u3).getD (max c.log_level INFO) }
            -- line 181 (default self.log_level, an int whenever this line runs)
            match pyUpper (cfg.console_log_level.getD (JVal.jstr "DEBUG")) with
            | .error _ => (c, true)
            | .ok u4 =>
              let cStr := u4 == "BASIC_FORMAT"
              let c := if cStr then c
                else { c with console_log_level := (levelAttr u4).getD c.log_level }
              -- lines 182-185
              ({ c with
                  syslog_facility := cfg.syslog_facility.getD c.syslog_facility,
                  use_file_logging := cfg.use_file_logging.getD c.use_file_logging,
                  use_syslog_logging := cfg.use_syslog_logging.getD c.use_syslog_logging,
                  use_console_logging := cfg.use_console_logging.getD c.use_console_logging },
               false)

/-- `LoggerConfig._setup_logger` (src lines 190-247).  `lg` is the logger
the process-wide registry returns for `self.name`; `syslogOk` says
whether `SysLogHandler(address='/dev/log', ...)` construction succeeds. -/
def _setup_logger (c : LoggerConfig) (lg : Logger) (syslogOk : Bool) : LoggerConfig :=
  -- lines 203-205: getLogger, setLevel, addFilter
  let lg := { lg with level := c.log_level, filterCount := lg.filterCount + 1 }
  -- line 208: if not self.logger.handlers
  if lg.handlers.isEmpty then
    -- lines 216-227: file handler
    let p1 : LoggerConfig × Logger :=
      if c.use_file_logging then
        ({ c with file_handler := some { level := c.file_log_level } },
         { lg with handlers := lg.handlers ++ [HKind.file] })
      else (c, lg)
    let c := p1.1
    let lg := p1.2
    -- lines 230-240: syslog handler, creation may raise
    let p2 : LoggerConfig × Logger :=
      if c.use_syslog_logging then
        if syslogOk then
          ({ c with syslog_handler := some { level := c.syslog_log_level } },
           { lg with handlers := lg.handlers ++ [HKind.syslog] })
        else
          (c, { lg with records :=
                  lg.records ++ ["WARNING: Failed to configure syslog handler"] })
      else (c, lg)
    let c := p2.1
    let lg := p2.2
    -- lines 243-247: console handler
    let p3 : LoggerConfig × Logger :=
      if c.use_console_logging then
        ({ c with console_handler := some { level := c.console_log_level } },
         { lg with handlers := lg.handlers ++ [HKind.console] })
      else (c, lg)
    { p3.1 with logger := p3.2 }
  else
    { c with logger := lg }

/-- `LoggerConfig.__init__` (src lines 136-158).  All arguments are
positional; Python defaults are `log_level='DEBUG'`, the three override
levels `None`, `syslog_facility='user'`, the three flags `True`,
`config_file=None`.  Returns the constructed object plus `true` iff
`_load_config` printed a bootstrap diagnostic. -/
def LoggerConfig.init (name log_file log_level : String)
    (file_lvl syslog_lvl console_lvl : Option String) (syslog_facility : String)
    (uf us uc : Bool) (config_file : Option LoadResult) (lg : Logger)
    (syslogOk : Bool) : LoggerConfig × Bool :=
  -- line 145
  let ll := getattrLogging log_level DEBUG
  let c : LoggerConfig :=
    { name := name, log_file := log_file, syslog_facility := syslog_facility,
      use_file_logging := uf, use_syslog_logging := us, use_console_logging := uc,
      log_level := ll,
      -- line 146: explicit override resolves with fallback self.log_level
      file_log_level := match file_lvl with
        | some s => getattrLogging s ll
        | none => ll,
      -- line 147: explicit override resolves with fallback max(self.log_level, INFO);
      -- a *recognized* explicit name is stored as resolved, unclamped
      syslog_log_level := match syslog_lvl with
        | some s => getattrLogging s (max ll INFO)
        | none => max ll INFO,
      -- line 148
      console_log_level := match console_lvl with
        | some s => getattrLogging s ll
        | none => ll,
      file_handler := none, syslog_handler := none, console_handler := none,
      logger := lg }
  -- lines 155-156
  let p : LoggerConfig × Bool :=
    match config_file with
    | some src => _load_config c src
    | none => (c, false)
  -- line 158
  (_setup_logger p.1 lg syslogOk, p.2)

/-- Append an emitted record to the config's logger. -/
def emit (c : LoggerConfig) (msg : String) : LoggerConfig :=
  { c with logger := { c.logger with records := c.logger.records ++ [msg] } }

/-- Remove the first occurrence of a kind (`Logger.removeHandler`; each
config owns at most one live handler object per kind). -/
def removeFirst (k : HKind) : List HKind → List HKind
  | [] => []
  | k' :: t => if k' = k then t else k' :: removeFirst k t

/-- `LoggerConfig.set_log_level` (src lines 249-276). -/
def set_log_level (c : LoggerConfig) (s : String) : LoggerConfig :=
  -- line 264
  let new := getattrLogging s DEBUG
  -- lines 265-266
  let c := { c with log_level := new, logger := { c.logger with level := new } }
  -- lines 267-269
  let c := match c.file_handler with
    | some _ => { c with file_log_level := new, file_handler := some { level := new } }
    | none => c
  -- lines 270-272
  let c := match c.syslog_handler with
    | some _ => { c with syslog_log_level := max new INFO,
                         syslog_handler := some { level := max new INFO } }
    | none => c
  -- lines 273-275
  let c := match c.console_handler with
    | some _ => { c with console_log_level := new, console_handler := some { level := new } }
    | none => c
  -- line 276
  emit c ("INFO: Log level changed to " ++ pyStrUpper s ++ " for logger and all handlers")

/-- `LoggerConfig.set_file_log_level` (src lines 278-299). -/
def set_file_log_level (c : LoggerConfig) (s : String) : LoggerConfig :=
  if !c.use_file_logging || c.file_handler.isNone then
    emit c "WARNING: File handler is not enabled; cannot change log level"
  else
    let new := getattrLogging s DEBUG
    let c := { c with file_log_level := new, file_handler := some { level := new } }
    emit c ("INFO: File handler log level changed to " ++ pyStrUpper s)

/-- `LoggerConfig.set_syslog_log_level` (src lines 301-322). -/
def set_syslog_log_level (c : LoggerConfig) (s : String) : LoggerConfig :=
  -- lines 316-318
  if !c.use_syslog_logging || c.syslog_handler.isNone then
    emit c "WARNING: Syslog handler is not enabled; cannot change log level"
  else
    -- lines 319-321: floor at INFO
    let new := getattrLogging s DEBUG
    let c := { c with syslog_log_level := max new INFO,
                      syslog_handler := some { level := max new INFO } }
    emit c ("INFO: Syslog handler log level changed to " ++ pyStrUpper s)

/-- `LoggerConfig.set_console_log_level` (src lines 324-345). -/
def set_console_log_level (c : LoggerConfig) (s : String) : LoggerConfig :=
  if !c.use_console_logging || c.console_handler.isNone then
    emit c "WARNING: Console handler is not enabled; cannot change log level"
  else
    let new := getattrLogging s DEBUG
    let c := { c with console_log_level := new, console_handler := some { level := new } }
    emit c ("INFO: Console handler log level changed to " ++ pyStrUpper s)

/-- `LoggerConfig.enable_file_logging` (src lines 347-376): guarded on
the flag only. -/
def enable_file_logging (c : LoggerConfig) : LoggerConfig :=
  if c.use_file_logging then c
  else
    let c := { c with
      file_handler := some { level := c.file_log_level },
      use_file_logging := true,
      logger := { c.logger with handlers := c.logger.handlers ++ [HKind.file] } }
    emit c "INFO: File logging enabled"

/-- `LoggerConfig.disable_file_logging` (src lines 378-395): guarded on
flag AND handler. -/
def disable_file_logging (c : LoggerConfig) : LoggerConfig :=
  if c.use_file_logging ∧ c.file_handler.isSome then
    let c := { c with
      file_handler := none,
      use_file_logging := false,
      logger := { c.logger with handlers := removeFirst HKind.file c.logger.handlers } }
    emit c "INFO: File logging disabled"
  else c

/-- `LoggerConfig.enable_syslog_logging` (src lines 397-428): guarded on
the flag only; handler creation may raise, caught with a warning and no
state change. -/
def enable_syslog_logging (c : LoggerConfig) (syslogOk : Bool) : LoggerConfig :=
  if c.use_syslog_logging then c
  else if syslogOk then
    let c := { c with
      syslog_handler := some { level := c.syslog_log_level },
      use_syslog_logging := true,
      logger := { c.logger with handlers := c.logger.handlers ++ [HKind.syslog] } }
    emit c "INFO: Syslog logging enabled"
  else
    emit c "WARNING: Failed to enable syslog handler"

/-- `LoggerConfig.disable_syslog_logging` (src lines 430-447): guarded on
flag AND handler. -/
def disable_syslog_logging (c : LoggerConfig) : LoggerConfig :=
  if c.use_syslog_logging ∧ c.syslog_handler.isSome then
    let c := { c with
      syslog_handler := none,
      use_syslog_logging := false,
      logger := { c.logger with handlers := removeFirst HKind.syslog c.logger.handlers } }
    emit c "INFO: Syslog logging disabled"
  else c

/-- `LoggerConfig.enable_console_logging` (src lines 449-471). -/
def enable_console_logging (c : LoggerConfig) : LoggerConfig :=
  if c.use_console_logging then c
  else
    let c := { c with
      console_handler := some { level := c.console_log_level },
      use_console_logging := true,
      logger := { c.logger with handlers := c.logger.handlers ++ [HKind.console] } }
    emit c "INFO: Console logging enabled"

/-- `LoggerConfig.disable_console_logging` (src lines 473-490). -/
def disable_console_logging (c : LoggerConfig) : LoggerConfig :=
  if c.use_console_logging ∧ c.console_handler.isSome then
    let c := { c with
      console_handler := none,
      use_console_logging := false,
      logger := { c.logger with handlers := removeFirst HKind.console c.logger.handlers } }
    emit c "INFO: Console logging disabled"
  else c

/-- One entry of `get_handler_status`. -/
structure HandlerStatus where
  enabled : Bool
  level : String
deriving DecidableEq, Repr

/-- The dict returned by `get_handler_status`. -/
structure Status where
  file : HandlerStatus
  syslog : HandlerStatus
  console : HandlerStatus
  logger_level : String
deriving DecidableEq, Repr

/-- `LoggerConfig.get_handler_status` (src lines 507-541): level reads
the stored field but reports "N/A" whenever the handler object is null. -/
def get_handler_status (c : LoggerConfig) : Status :=
  { file := { enabled := c.use_file_logging,
              level := if c.file_handler.isSome then getLevelName c.file_log_level else "N/A" },
    syslog := { enabled := c.use_syslog_logging,
                level := if c.syslog_handler.isSome then getLevelName c.syslog_log_level else "N/A" },
    console := { enabled := c.use_console_logging,
                 level := if c.console_handler.isSome then getLevelName c.console_log_level else "N/A" },
    logger_level := getLevelName c.log_level }

/-- A public mutating operation on a constructed `LoggerConfig`
(environment outcomes for syslog creation are part of the event). -/
inductive Op where
  | setLogLevel (s : String)
  | setFileLogLevel (s : String)
  | setSyslogLogLevel (s : String)
  | setConsoleLogLevel (s : String)
  | enableFile
  | disableFile
  | enableSyslog (syslogOk : Bool)
  | disableSyslog
  | enableConsole
  | disableConsole
deriving DecidableEq, Repr

/-- Interpretation of one public operation. -/
def applyOp (c : LoggerConfig) : Op → LoggerConfig
  | .setLogLevel s => set_log_level c s
  | .setFileLogLevel s => set_file_log_level c s
  | .setSyslogLogLevel s => set_syslog_log_level c s
  | .setConsoleLogLevel s => set_console_log_level c s
  | .enableFile => enable_file_logging c
  | .disableFile => disable_file_logging c
  | .enableSyslog ok => enable_syslog_logging c ok
  | .disableSyslog => disable_syslog_logging c
  | .enableConsole => enable_console_logging c
  | .disableConsole => disable_console_logging c

/-- Run a sequence of public operations. -/
def applyOps (c : LoggerConfig) : List Op → LoggerConfig
  | [] => c
  | op :: ops => applyOps (applyOp c op) ops

/-- Number of file handlers attached to the logger. -/
def countFileH : List HKind → Nat
  | [] => 0
  | HKind.file :: t => countFileH t + 1
  | _ :: t => countFileH t

/-- Whether a level entry lets `_load_config` proceed with an integer
result: it is a string (so `.upper()` succeeds) and does not resolve to
the non-integer BASIC_FORMAT attribute. -/
def levelEntryOk : JVal → Bool
  | .jstr s => pyStrUpper s != "BASIC_FORMAT"
  | .jother => false

/-- All four level entries that `_load_config` reads (present value or
string default) are strings and none resolves to BASIC_FORMAT, so the
load runs to completion with integer levels and no diagnostic. -/
def Settings.levelsWellTyped (cfg : Settings) : Bool :=
  levelEntryOk (cfg.log_level.getD (JVal.jstr "DEBUG"))
    && levelEntryOk (cfg.file_log_level.getD (JVal.jstr "DEBUG"))
    && levelEntryOk (cfg.syslog_log_level.getD (JVal.jstr "INFO"))
    && levelEntryOk (cfg.console_log_level.getD (JVal.jstr "DEBUG"))

/-- A default-constructed config (all three sinks requested, syslog
transport available, fresh logger name). -/
def sampleDflt : LoggerConfig :=
  (LoggerConfig.init "app" "/var/log/app.log" "INFO" none none none "user"
    true true true none freshLogger true).1

/-- Like `sampleDflt` but constructed with `use_file_logging=False`. -/
def sampleNoFile : LoggerConfig :=
  (LoggerConfig.init "app" "/var/log/app.log" "INFO" none none none "user"
    false true true none freshLogger true).1

/-- A config constructed with `use_syslog_logging=True` on a host whose
syslog transport is unavailable: the failed-creation state. -/
def sampleDead : LoggerConfig :=
  (LoggerConfig.init "app" "/var/log/app.log" "DEBUG" none none none "user"
    true true true none freshLogger false).1

/-! Helper lemmas (shared). -/

theorem countFileH_append (l : List HKind) :
    countFileH (l ++ [HKind.file]) = countFileH l + 1 := by
  induction l with
  | nil => rfl
  | cons k t ih => cases k <;> simp [countFileH, ih]

theorem setup_preserves (c : LoggerConfig) (lg : Logger) (ok : Bool) :
    (_setup_logger c lg ok).log_level = c.log_level
    ∧ (_setup_logger c lg ok).file_log_level = c.file_log_level
    ∧ (_setup_logger c lg ok).syslog_log_level = c.syslog_log_level
    ∧ (_setup_logger c lg ok).console_log_level = c.console_log_level
    ∧ (_setup_logger c lg ok).use_file_logging = c.use_file_logging
    ∧ (_setup_logger c lg ok).use_syslog_logging = c.use_syslog_logging
    ∧ (_setup_logger c lg ok).use_console_logging = c.use_console_logging := by
  cases hE : lg.handlers.isEmpty <;> cases hf : c.use_file_logging <;>
    cases hs : c.use_syslog_logging <;> cases hc : c.use_console_logging <;>
    cases ok <;> simp [_setup_logger, hE, hf, hs, hc]

theorem setup_logger_level (c : LoggerConfig) (lg : Logger) (ok : Bool) :
    (_setup_logger c lg ok).logger.level = c.log_level := by
  cases hE : lg.handlers.isEmpty <;> cases hf : c.use_file_logging <;>
    cases hs : c.use_syslog_logging <;> cases hc : c.use_console_logging <;>
    cases ok <;> simp [_setup_logger, hE, hf, hs, hc]

theorem setup_syslog_handler_fail (c : LoggerConfig) (lg : Logger) :
    (_setup_logger c lg false).syslog_handler = c.syslog_handler := by
  cases hE : lg.handlers.isEmpty <;> cases hf : c.use_file_logging <;>
    cases hs : c.use_syslog_logging <;> cases hc : c.use_console_logging <;>
    simp [_setup_logger, hE, hf, hs, hc]

/-- One public operation keeps a failed-syslog state (flag true, handle
null) failed: no operation can attach a syslog handler or clear the
flag. -/
theorem op_preserves_dead (c : LoggerConfig) (op : Op)
    (h1 : c.use_syslog_logging = true) (h2 : c.syslog_handler = none) :
    (applyOp c op).use_syslog_logging = true ∧ (applyOp c op).syslog_handler = none := by
  cases op with
  | setLogLevel s =>
    cases hf : c.file_handler <;> cases hc : c.console_handler <;>
      simp [applyOp, set_log_level, emit, h1, h2, hf, hc]
  | setFileLogLevel s =>
    simp only [applyOp, set_file_log_level]
    split <;> simp [emit, h1, h2]
  | setSyslogLogLevel s =>
    simp [applyOp, set_syslog_log_level, emit, h1, h2]
  | setConsoleLogLevel s =>
    simp only [applyOp, set_console_log_level]
    split <;> simp [emit, h1, h2]
  | enableFile =>
    simp only [applyOp, enable_file_logging]
    split <;> simp [emit, h1, h2]
  | disableFile =>
    simp only [applyOp, disable_file_logging]
    split <;> simp [emit, h1, h2]
  | enableSyslog ok =>
    simp [applyOp, enable_syslog_logging, h1, h2]
  | disableSyslog =>
    simp [applyOp, disable_syslog_logging, h1, h2]
  | enableConsole =>
    simp only [applyOp, enable_console_logging]
    split <;> simp [emit, h1, h2]
  | disableConsole =>
    simp only [applyOp, disable_console_logging]
    split <;> simp [emit, h1, h2]

/-- Sequences of public operations preserve the failed-syslog state. -/
theorem ops_preserve_dead (ops : List Op) (c : LoggerConfig)
    (h1 : c.use_syslog_logging = true) (h2 : c.syslog_handler = none) :
    (applyOps c ops).use_syslog_logging = true ∧ (applyOps c ops).syslog_handler = none := by
  induction ops generalizing c with
  | nil => exact ⟨h1, h2⟩
  | cons op ops ih =>
    have h := op_preserves_dead c op h1 h2
    exact ih (applyOp c op) h.1 h.2

/-- One public operation preserves the INFO floor on the stored syslog
level. -/
theorem op_preserves_floor (c : LoggerConfig) (op : Op)
    (h : INFO ≤ c.syslog_log_level) :
    INFO ≤ (applyOp c op).syslog_log_level := by
  cases op with
  | setLogLevel s =>
    cases hf : c.file_handler <;> cases hs : c.syslog_handler <;>
      cases hc : c.console_handler <;>
      simp [applyOp, set_log_level, emit, hf, hs, hc, h]
  | setFileLogLevel s =>
    simp only [applyOp, set_file_log_level]
    split <;> simp [emit, h]
  | setSyslogLogLevel s =>
    simp only [applyOp, set_syslog_log_level]
    split <;> simp [emit, h]
  | setConsoleLogLevel s =>
    simp only [applyOp, set_console_log_level]
    split <;> simp [emit, h]
  | enableFile =>
    simp only [applyOp, enable_file_logging]
    split <;> simp [emit, h]
  | disableFile =>
    simp only [applyOp, disable_file_logging]
    split <;> simp [emit, h]
  | enableSyslog ok =>
    simp only [applyOp, enable_syslog_logging]
    split <;> [simp [h]; split <;> simp [emit, h]]
  | disableSyslog =>
    simp only [applyOp, disable_syslog_logging]
    split <;> simp [emit, h]
  | enableConsole =>
    simp only [applyOp, enable_console_logging]
    split <;> simp [emit, h]
  | disableConsole =>
    simp only [applyOp, disable_console_logging]
    split <;> simp [emit, h]

/-- Sequences of public operations preserve the INFO floor. -/
theorem ops_preserve_floor (ops : List Op) (c : LoggerConfig)
    (h : INFO ≤ c.syslog_log_level) :
    INFO ≤ (applyOps c ops).syslog_log_level := by
  induction ops generalizing c with
  | nil => exact h
  | cons op ops ih => exact ih (applyOp c op) (op_preserves_floor c op h)

/-! Claim theorems. -/

/-- C5: for every level name L, `set_log_level(L)` resolves L
(unrecognized → DEBUG, i.e. `getattrLogging L DEBUG`), sets the resolved
value as the logger's level and stores it, and propagates that same
resolved value to every currently-attached sink (file and console),
except the syslog sink, whose effective level becomes
max(resolved, INFO); sinks that are not currently attached (null
handler) are not touched. -/
theorem set_log_level_spec (c : LoggerConfig) (s : String)
    (_hbf : notBasicFormat s = true) :
    (set_log_level c s).log_level = getattrLogging s DEBUG
    ∧ (set_log_level c s).logger.level = getattrLogging s DEBUG
    ∧ (c.file_handler.isSome = true →
        (set_log_level c s).file_log_level = getattrLogging s DEBUG
        ∧ (set_log_level c s).file_handler = some { level := getattrLogging s DEBUG })
    ∧ (c.file_handler = none →
        (set_log_level c s).file_handler = none
        ∧ (set_log_level c s).file_log_level = c.file_log_level)
    ∧ (c.syslog_handler.isSome = true →
        (set_log_level c s).syslog_log_level = max (getattrLogging s DEBUG) INFO
        ∧ (set_log_level c s).syslog_handler
            = some { level := max (getattrLogging s DEBUG) INFO })
    ∧ (c.syslog_handler = none →
        (set_log_level c s).syslog_handler = none
        ∧ (set_log_level c s).syslog_log_level = c.syslog_log_level)
    ∧ (c.console_handler.isSome = true →
        (set_log_level c s).console_log_level = getattrLogging s DEBUG
        ∧ (set_log_level c s).console_handler = some { level := getattrLogging s DEBUG })
    ∧ (c.console_handler = none →
        (set_log_level c s).console_handler = none
        ∧ (set_log_level c s).console_log_level = c.console_log_level) := by
  cases hf : c.file_handler <;> cases hs : c.syslog_handler <;>
    cases hc : c.console_handler <;> simp [set_log_level, emit, hf, hs, hc]

/-- Witness for C5 at a concrete default-constructed config and L =
"ERROR": all three handlers are attached, the resolved value is 40, and
the syslog sink gets max(40, 20) = 40. -/
theorem set_log_level_spec_witness :
    notBasicFormat "ERROR" = true
    ∧ sampleDflt.file_handler.isSome = true
    ∧ sampleDflt.syslog_handler.isSome = true
    ∧ sampleDflt.console_handler.isSome = true
    ∧ (set_log_level sampleDflt "ERROR").log_level = ERROR
    ∧ (set_log_level sampleDflt "ERROR").file_log_level = ERROR
    ∧ (set_log_level sampleDflt "ERROR").syslog_log_level = max ERROR INFO
    ∧ (set_log_level sampleDflt "ERROR").console_log_level = ERROR := by
  have h := set_log_level_spec sampleDflt "ERROR" (by decide)
  refine ⟨by decide, by decide, by decide, by decide, ?_, ?_, ?_, ?_⟩
  · exact h.1.trans (by decide)
  · exact ((h.2.2.1 (by decide)).1).trans (by decide)
  · exact (h.2.2.2.2.1 (by decide)).1
  · exact ((h.2.2.2.2.2.2.1 (by decide)).1).trans (by decide)

/-- C6: for every name L recognized as an integer level (hypothesis
`levelAttr L.toUpper = some v`, which includes the five documented
names), constructing with `log_level = L`, no per-sink overrides and no
config file yields stored and logger level v, file and console levels v,
and syslog level max(v, INFO). -/
theorem init_levels_spec (name lf fac s : String) (v : Nat)
    (uf us uc ok : Bool) (lg : Logger)
    (hres : levelAttr (pyStrUpper s) = some v) :
    (LoggerConfig.init name lf s none none none fac uf us uc none lg ok).1.log_level = v
    ∧ (LoggerConfig.init name lf s none none none fac uf us uc none lg ok).1.logger.level = v
    ∧ (LoggerConfig.init name lf s none none none fac uf us uc none lg ok).1.file_log_level = v
    ∧ (LoggerConfig.init name lf s none none none fac uf us uc none lg ok).1.console_log_level = v
    ∧ (LoggerConfig.init name lf s none none none fac uf us uc none lg ok).1.syslog_log_level
        = max v INFO := by
  unfold LoggerConfig.init
  simp only [getattrLogging, hres, Option.getD]
  refine ⟨?_, ?_, ?_, ?_, ?_⟩ <;>
    simp [setup_preserves, setup_logger_level]

/-- Witness for C6 at L = "warning" (case-insensitive resolution to 30):
the floor leaves syslog at max(30, 20) = 30. -/
theorem init_levels_spec_witness :
    levelAttr (pyStrUpper "warning") = some WARNING
    ∧ (LoggerConfig.init "app" "/var/log/app.log" "warning" none none none "user"
        true true true none freshLogger true).1.log_level = WARNING
    ∧ (LoggerConfig.init "app" "/var/log/app.log" "warning" none none none "user"
        true true true none freshLogger true).1.syslog_log_level = max WARNING INFO := by
  have h := init_levels_spec "app" "/var/log/app.log" "user" "warning" WARNING
    true true true true freshLogger (by decide)
  exact ⟨by decide, h.1, h.2.2.2.2⟩

/-- C7: whenever the syslog sink is enabled and attached,
`set_syslog_log_level(L)` sets both the stored syslog level and the
attached handler's level to max(resolve(L), INFO); in particular
resolve("DEBUG") = DEBUG and the effective level is then INFO. -/
theorem set_syslog_log_level_spec (c : LoggerConfig) (s : String) (h : Handler)
    (hen : c.use_syslog_logging = true) (hh : c.syslog_handler = some h)
    (_hbf : notBasicFormat s = true) :
    (set_syslog_log_level c s).syslog_log_level = max (getattrLogging s DEBUG) INFO
    ∧ (set_syslog_log_level c s).syslog_handler
        = some { level := max (getattrLogging s DEBUG) INFO } := by
  simp [set_syslog_log_level, emit, hen, hh]

/-- Witness for C7 at the default-constructed config and L = "DEBUG":
resolve("DEBUG") = 10 and the effective syslog level is clamped to
INFO = 20. -/
theorem set_syslog_log_level_spec_witness :
    sampleDflt.use_syslog_logging = true
    ∧ sampleDflt.syslog_handler = some { level := INFO }
    ∧ (set_syslog_log_level sampleDflt "DEBUG").syslog_log_level = INFO
    ∧ (set_syslog_log_level sampleDflt "DEBUG").syslog_handler = some { level := INFO } := by
  have h := set_syslog_log_level_spec sampleDflt "DEBUG" { level := INFO }
    (by decide) (by decide) (by decide)
  exact ⟨by decide, by decide, h.1.trans (by decide), h.2.trans (by decide)⟩

/-- C9: `enable_file_logging` is idempotent: whenever file logging is
already enabled it is a no-op (the whole state — handler set, fields,
emitted records — is unchanged), hence two consecutive calls equal one,
and from a disabled state the pair of calls attaches exactly one more
file sink. -/
theorem enable_file_logging_idem (c : LoggerConfig) :
    (c.use_file_logging = true → enable_file_logging c = c)
    ∧ enable_file_logging (enable_file_logging c) = enable_file_logging c
    ∧ (c.use_file_logging = false →
        countFileH (enable_file_logging (enable_file_logging c)).logger.handlers
          = countFileH c.logger.handlers + 1) := by
  cases hf : c.use_file_logging with
  | true => simp [enable_file_logging, hf]
  | false =>
    refine ⟨by simp, ?_, ?_⟩
    · simp [enable_file_logging, hf, emit]
    · intro _
      simp [enable_file_logging, hf, emit, countFileH_append]

/-- Witness for C9: on a config constructed with all sinks enabled the
call is a no-op, and on one constructed with file logging off two calls
attach exactly one file sink. -/
theorem enable_file_logging_idem_witness :
    sampleDflt.use_file_logging = true
    ∧ enable_file_logging sampleDflt = sampleDflt
    ∧ sampleNoFile.use_file_logging = false
    ∧ countFileH (enable_file_logging (enable_file_logging sampleNoFile)).logger.handlers
        = countFileH sampleNoFile.logger.handlers + 1 := by
  refine ⟨by decide, (enable_file_logging_idem sampleDflt).1 (by decide), by decide,
    (enable_file_logging_idem sampleNoFile).2.2 (by decide)⟩

/-- C10: once `use_syslog_logging = true` with `syslog_handler = null`
(the state construction leaves when syslog creation fails), no public
operation can attach a syslog sink: `enable_syslog_logging` is a no-op
(flag-guard), `disable_syslog_logging` is a no-op (handle-guard),
`set_syslog_log_level` only emits a warning, and along any sequence of
public operations the flag stays true and the handle stays null. -/
theorem syslog_unrecoverable_spec (c : LoggerConfig)
    (hflag : c.use_syslog_logging = true) (hh : c.syslog_handler = none) :
    (∀ ok : Bool, enable_syslog_logging c ok = c)
    ∧ disable_syslog_logging c = c
    ∧ (∀ s : String, set_syslog_log_level c s
        = emit c "WARNING: Syslog handler is not enabled; cannot change log level")
    ∧ (∀ ops : List Op, (applyOps c ops).use_syslog_logging = true
        ∧ (applyOps c ops).syslog_handler = none) := by
  refine ⟨?_, ?_, ?_, ?_⟩
  · intro ok
    simp [enable_syslog_logging, hflag]
  · simp [disable_syslog_logging, hh]
  · intro s
    simp [set_syslog_log_level, hh]
  · intro ops
    exact ops_preserve_dead ops c hflag hh

/-- Witness for C10 on the concrete failed-syslog construction
`sampleDead`: the dead state holds there and survives an
enable/disable/set sequence. -/
theorem syslog_unrecoverable_spec_witness :
    sampleDead.use_syslog_logging = true
    ∧ sampleDead.syslog_handler = none
    ∧ enable_syslog_logging sampleDead true = sampleDead
    ∧ disable_syslog_logging sampleDead = sampleDead
    ∧ (applyOps sampleDead
        [Op.enableSyslog true, Op.setSyslogLogLevel "ERROR", Op.disableSyslog]).syslog_handler
        = none := by
  have h := syslog_unrecoverable_spec sampleDead (by decide) (by decide)
  exact ⟨by decide, by decide, h.1 true, h.2.1, (h.2.2.2 _).2⟩

/-- C1 (amended): the INFO floor on the stored syslog level is an
invariant of every public operation, and construction with no explicit
syslog override and no config file establishes it; but an explicit
*recognized* below-INFO override at construction escapes the clamp (the
`max(..., INFO)` at src line 147 is only the getattr fallback), so the
claim's universal version is refuted by `syslog_floor_counterexample`. -/
theorem syslog_floor_spec :
    (∀ (c : LoggerConfig) (ops : List Op), INFO ≤ c.syslog_log_level →
       INFO ≤ (applyOps c ops).syslog_log_level)
    ∧ (∀ (name lf ll fac : String) (uf us uc ok : Bool) (lg : Logger),
       INFO ≤ (LoggerConfig.init name lf ll none none none fac
                 uf us uc none lg ok).1.syslog_log_level) := by
  constructor
  · intro c ops h
    exact ops_preserve_floor ops c h
  · intro name lf ll fac uf us uc ok lg
    unfold LoggerConfig.init
    simp [setup_preserves, INFO]

/-- C1 counterexample: constructing with the explicit override
`syslog_log_level='DEBUG'` stores 10, below the INFO floor — the claimed
invariant fails already on the construction operation. -/
theorem syslog_floor_counterexample :
    (LoggerConfig.init "app" "/var/log/app.log" "INFO" none (some "DEBUG") none "user"
       true true true none freshLogger true).1.syslog_log_level = DEBUG
    ∧ ¬ INFO ≤ (LoggerConfig.init "app" "/var/log/app.log" "INFO" none (some "DEBUG") none
       "user" true true true none freshLogger true).1.syslog_log_level := by
  decide

/-- Witness for C1's amended theorem: the floor holds on the
default-constructed state and survives a `set_log_level('DEBUG')`
followed by `set_syslog_log_level('DEBUG')`. -/
theorem syslog_floor_spec_witness :
    INFO ≤ sampleDflt.syslog_log_level
    ∧ INFO ≤ (applyOps sampleDflt
        [Op.setLogLevel "DEBUG", Op.setSyslogLogLevel "DEBUG"]).syslog_log_level := by
  exact ⟨by decide, syslog_floor_spec.1 sampleDflt _ (by decide)⟩

theorem levelAttr_upper_DEBUG : levelAttr (pyStrUpper "DEBUG") = some DEBUG := by decide

theorem levelAttr_upper_INFO : levelAttr (pyStrUpper "INFO") = some INFO := by decide

theorem upper_DEBUG_not_basic : (pyStrUpper "DEBUG" == "BASIC_FORMAT") = false := by decide

theorem upper_INFO_not_basic : (pyStrUpper "INFO" == "BASIC_FORMAT") = false := by decide

/-- C2 (amended): when syslog sink creation fails during construction,
construction as a whole still succeeds and the handle stays null, but
the enabled flag `use_syslog_logging` stays TRUE (the `except` clause at
src lines 239-240 only warns, it never clears the flag), so
`get_handler_status` reports the syslog entry as
`{enabled: True, level: 'N/A'}`. -/
theorem init_syslog_failure_spec (name lf ll fac : String) (uf uc : Bool)
    (_hbf : notBasicFormat ll = true) :
    (LoggerConfig.init name lf ll none none none fac uf true uc none
       freshLogger false).1.use_syslog_logging = true
    ∧ (LoggerConfig.init name lf ll none none none fac uf true uc none
       freshLogger false).1.syslog_handler = none
    ∧ (get_handler_status (LoggerConfig.init name lf ll none none none fac uf true uc none
       freshLogger false).1).syslog = { enabled := true, level := "N/A" } := by
  have h1 : (LoggerConfig.init name lf ll none none none fac uf true uc none
      freshLogger false).1.syslog_handler = none := by
    unfold LoggerConfig.init
    simp [setup_syslog_handler_fail]
  have h2 : (LoggerConfig.init name lf ll none none none fac uf true uc none
      freshLogger false).1.use_syslog_logging = true := by
    unfold LoggerConfig.init
    simp [setup_preserves]
  exact ⟨h2, h1, by simp [get_handler_status, h1, h2]⟩

/-- C2 counterexample: on the concrete failed-syslog construction the
enabled flag is true and the status entry is
`{enabled: True, level: 'N/A'}`, not the claimed
`{enabled: False, level: 'N/A'}`. -/
theorem init_syslog_failure_counterexample :
    sampleDead.use_syslog_logging = true
    ∧ sampleDead.syslog_handler = none
    ∧ (get_handler_status sampleDead).syslog = { enabled := true, level := "N/A" }
    ∧ (get_handler_status sampleDead).syslog ≠ { enabled := false, level := "N/A" } := by
  decide

/-- Witness for C2's amended theorem at concrete arguments. -/
theorem init_syslog_failure_spec_witness :
    notBasicFormat "DEBUG" = true
    ∧ (get_handler_status (LoggerConfig.init "app" "/var/log/app.log" "DEBUG"
        none none none "user" true true true none freshLogger false).1).syslog
        = { enabled := true, level := "N/A" } := by
  exact ⟨by decide,
    (init_syslog_failure_spec "app" "/var/log/app.log" "DEBUG" "user" true true
      (by decide)).2.2⟩

/-- C3 (amended): during a `_load_config` run that completes (every
level entry is a string and none resolves to the non-integer
BASIC_FORMAT attribute, so no exception aborts the load), the keys
`log_file`, `syslog_facility` and the
three `use_*` flags do retain the pre-load value when absent, but an
absent level key does NOT retain it: the string defaults 'DEBUG'/'INFO'
of `config.get` resolve successfully, so `log_level`, `file_log_level`
and `console_log_level` are reset to DEBUG and `syslog_log_level` to
INFO. -/
theorem load_config_defaults_spec (c : LoggerConfig) (cfg : Settings)
    (hw : cfg.levelsWellTyped = true) :
    (_load_config c (.parsed cfg)).2 = false
    ∧ (cfg.log_file = none → (_load_config c (.parsed cfg)).1.log_file = c.log_file)
    ∧ (cfg.syslog_facility = none →
        (_load_config c (.parsed cfg)).1.syslog_facility = c.syslog_facility)
    ∧ (cfg.use_file_logging = none →
        (_load_config c (.parsed cfg)).1.use_file_logging = c.use_file_logging)
    ∧ (cfg.use_syslog_logging = none →
        (_load_config c (.parsed cfg)).1.use_syslog_logging = c.use_syslog_logging)
    ∧ (cfg.use_console_logging = none →
        (_load_config c (.parsed cfg)).1.use_console_logging = c.use_console_logging)
    ∧ (cfg.log_level = none → (_load_config c (.parsed cfg)).1.log_level = DEBUG)
    ∧ (cfg.file_log_level = none → (_load_config c (.parsed cfg)).1.file_log_level = DEBUG)
    ∧ (cfg.syslog_log_level = none → (_load_config c (.parsed cfg)).1.syslog_log_level = INFO)
    ∧ (cfg.console_log_level = none →
        (_load_config c (.parsed cfg)).1.console_log_level = DEBUG) := by
  unfold Settings.levelsWellTyped at hw
  rcases h1 : cfg.log_level with _ | (s1 | _) <;>
    rcases h2 : cfg.file_log_level with _ | (s2 | _) <;>
      rcases h3 : cfg.syslog_log_level with _ | (s3 | _) <;>
        rcases h4 : cfg.console_log_level with _ | (s4 | _) <;>
          simp_all [_load_config, pyUpper, levelEntryOk,
            levelAttr_upper_DEBUG, levelAttr_upper_INFO,
            upper_DEBUG_not_basic, upper_INFO_not_basic]

/-- C3 counterexample: same constructor arguments, once without and once
with a settings source from which the `log_level` key is absent — the
field is reset to DEBUG instead of retaining the constructor-supplied
ERROR. -/
theorem load_config_defaults_counterexample :
    (LoggerConfig.init "app" "/var/log/app.log" "ERROR" none none none "user"
       true true true none freshLogger true).1.log_level = ERROR
    ∧ (LoggerConfig.init "app" "/var/log/app.log" "ERROR" none none none "user"
       true true true (some (LoadResult.parsed Settings.empty)) freshLogger true).1.log_level
       = DEBUG
    ∧ DEBUG ≠ ERROR := by
  decide

/-- Witness for C3's amended theorem at the empty settings source. -/
theorem load_config_defaults_spec_witness :
    Settings.empty.levelsWellTyped = true
    ∧ (_load_config sampleDflt (.parsed Settings.empty)).1.log_file = sampleDflt.log_file
    ∧ (_load_config sampleDflt (.parsed Settings.empty)).1.syslog_log_level = INFO := by
  have h := load_config_defaults_spec sampleDflt Settings.empty (by decide)
  exact ⟨by decide, h.2.1 rfl, h.2.2.2.2.2.2.2.2.1 rfl⟩

/-- C4 (amended): an unreadable or JSON-malformed source fails before
any assignment, so the whole state is left at its pre-load value, the
failure is caught and a bootstrap diagnostic is printed, and nothing
propagates to the caller; but a *parsed* source carrying a non-string
`log_level` value raises at `.upper()` AFTER `log_file` was already
assigned (src line 177 precedes line 178), so a partial update — the new
`log_file` — is observable after the caught failure. -/
theorem load_config_failure_spec (c : LoggerConfig) (cfg : Settings)
    (hmal : cfg.log_level = some JVal.jother) :
    _load_config c .unreadable = (c, true)
    ∧ _load_config c (.parsed cfg)
        = ({ c with log_file := cfg.log_file.getD c.log_file }, true) := by
  exact ⟨rfl, by simp [_load_config, hmal, pyUpper]⟩

/-- C4 counterexample: a source parsing to
`{"log_file": "/new", "log_level": 123}` fails mid-load, yet the loaded
state carries `log_file = "/new"` while the pre-load value was "/old" —
a partial update is observable after a failed load. -/
theorem load_config_failure_counterexample :
    (_load_config
       (LoggerConfig.init "app" "/old" "ERROR" none none none "user"
          true true true none freshLogger true).1
       (.parsed { Settings.empty with
                  log_file := some "/new", log_level := some JVal.jother })).2 = true
    ∧ (_load_config
       (LoggerConfig.init "app" "/old" "ERROR" none none none "user"
          true true true none freshLogger true).1
       (.parsed { Settings.empty with
                  log_file := some "/new", log_level := some JVal.jother })).1.log_file = "/new"
    ∧ (LoggerConfig.init "app" "/old" "ERROR" none none none "user"
          true true true none freshLogger true).1.log_file = "/old" := by
  decide

/-- Witness for C4's amended theorem at concrete inputs. -/
theorem load_config_failure_spec_witness :
    ({ Settings.empty with
       log_file := some "/new", log_level := some JVal.jother } : Settings).log_level
      = some JVal.jother
    ∧ _load_config sampleDflt .unreadable = (sampleDflt, true)
    ∧ _load_config sampleDflt
        (.parsed { Settings.empty with
                   log_file := some "/new", log_level := some JVal.jother })
        = ({ sampleDflt with log_file := "/new" }, true) := by
  have h := load_config_failure_spec sampleDflt
    { Settings.empty with log_file := some "/new", log_level := some JVal.jother } rfl
  exact ⟨rfl, h.1, h.2⟩

/-- C8 (amended): a level name whose uppercased form is not an integer
attribute of the `logging` module resolves to DEBUG — but the set of
recognized names is the eight integer attributes (DEBUG, INFO, WARNING,
WARN, ERROR, CRITICAL, FATAL, NOTSET), not the five documented ones:
WARN, FATAL and NOTSET also resolve, refuting the claim as stated
(`resolve_unrecognized_counterexample`). -/
theorem resolve_unrecognized_spec (c : LoggerConfig) (s : String)
    (h : levelAttr (pyStrUpper s) = none) (_hbf : notBasicFormat s = true) :
    (set_log_level c s).log_level = DEBUG
    ∧ (∀ (name lf fac : String) (uf us uc ok : Bool) (lg : Logger),
        (LoggerConfig.init name lf s none none none fac uf us uc none
           lg ok).1.log_level = DEBUG) := by
  constructor
  · cases hf : c.file_handler <;> cases hs : c.syslog_handler <;>
      cases hc : c.console_handler <;>
      simp [set_log_level, emit, getattrLogging, h, hf, hs, hc]
  · intro name lf fac uf us uc ok lg
    unfold LoggerConfig.init
    simp [getattrLogging, h, setup_preserves]

/-- C8 counterexample: "warn" (case-insensitively outside the five
documented names) resolves to WARNING = 30, not DEBUG, both in
`set_log_level` and at construction. -/
theorem resolve_unrecognized_counterexample :
    pyStrUpper "warn" = "WARN"
    ∧ ¬ (("WARN" : String) ∈ ["DEBUG", "INFO", "WARNING", "ERROR", "CRITICAL"])
    ∧ (set_log_level sampleDflt "warn").log_level = WARNING
    ∧ (LoggerConfig.init "app" "/var/log/app.log" "warn" none none none "user"
        true true true none freshLogger true).1.log_level = WARNING
    ∧ WARNING ≠ DEBUG := by
  decide

/-- Witness for C8's amended theorem at the truly-unrecognized name
"NOPE". -/
theorem resolve_unrecognized_spec_witness :
    levelAttr (pyStrUpper "NOPE") = none
    ∧ notBasicFormat "NOPE" = true
    ∧ (set_log_level sampleDflt "NOPE").log_level = DEBUG
    ∧ (LoggerConfig.init "app" "/var/log/app.log" "NOPE" none none none "user"
        true true true none freshLogger true).1.log_level = DEBUG := by
  have h := resolve_unrecognized_spec sampleDflt "NOPE" (by decide) (by decide)
  exact ⟨by decide, by decide, h.1,
    h.2 "app" "/var/log/app.log" "user" true true true true freshLogger⟩

end LoggingCfg
